import Mathlib

/-!
Verification of the AI-operation orchestration layer of the ai-assistant
repository: retry/backoff policy, operation monitoring and metrics,
the model-gateway error normalisation, and the response-cache layer of
the HTTP endpoints.  Each definition is a shallow embedding of the
corresponding Python function; machine reals used for delays, response
times and cost estimates are modelled with rationals (the values involved
are small sums, products by powers of two and divisions, all exact).
-/

namespace AIAssistant

/-! ### String helpers

Python substring tests (`kw in s`) and lowercasing (`s.lower()`), modelled
character-wise on the string data. -/

/-- Does the second list start with the first one? -/
def charsStartWith : List Char → List Char → Bool
  | [], _ => true
  | _ :: _, [] => false
  | a :: as, b :: bs => a == b && charsStartWith as bs

/-- Does the second list contain the first one as a contiguous run? -/
def charsHasSub (needle : List Char) : List Char → Bool
  | [] => charsStartWith needle []
  | hay@(_ :: rest) => charsStartWith needle hay || charsHasSub needle rest

/-- Python `needle in hay` on strings. -/
def strHasSub (hay needle : String) : Bool :=
  charsHasSub needle.data hay.data

/-- Python `s.lower()`. -/
def pyLower (s : String) : String :=
  ⟨s.data.map Char.toLower⟩

/-- Python `s or d` for an optional string: `None` and the empty string are
falsy and yield the default. -/
def pyOr (s : Option String) (d : String) : String :=
  match s with
  | none => d
  | some t => if t = "" then d else t

/-! ### Retry policy — `AIService._retry_with_backoff`

The operation is an effectful thunk: call number `n` (zero-indexed) either
returns a value or raises an error message.  The outcome records the final
result, how many times the operation was invoked, and the sequence of
backoff sleeps issued. -/

/-- Keywords whose presence in a lowercased error message classifies it as
retryable (`ai_service.py`). -/
def retryableKeywords : List String :=
  ["rate limit", "quota", "timeout", "network", "connection"]

/-- Retryable-error classification used by the retry loop:
`any(keyword in error_str for keyword in [...])` on the lowercased message. -/
def isRetryableError (msg : String) : Bool :=
  retryableKeywords.any (fun kw => strHasSub (pyLower msg) kw)

/-- Observable outcome of a run of the retry loop. -/
structure RetryOutcome (α : Type) where
  result : Except String α
  calls : Nat
  sleeps : List ℚ

/-- Body of `for attempt in range(max_retries + 1)` in `_retry_with_backoff`.
`remaining` counts iterations left in the range; `lastExc` threads
`last_exception`.  The `remaining = 0` case is the `raise last_exception`
after the loop (unreachable from the entry point, kept for faithfulness;
`last_exception = None` there would itself be a `TypeError`, rendered as an
empty message). -/
def retryLoop (op : Nat → Except String α) (maxRetries : Nat) (baseDelay : ℚ) :
    Nat → Nat → Option String → RetryOutcome α
  | _, 0, lastExc => ⟨.error (lastExc.getD ""), 0, []⟩
  | attempt, r + 1, _ =>
    match op attempt with
    | .ok v => ⟨.ok v, 1, []⟩
    | .error e =>
      if isRetryableError e then
        if attempt < maxRetries then
          let delay := baseDelay * 2 ^ attempt
          let rest := retryLoop op maxRetries baseDelay (attempt + 1) r (some e)
          ⟨rest.result, rest.calls + 1, delay :: rest.sleeps⟩
        else ⟨.error e, 1, []⟩
      else ⟨.error e, 1, []⟩

/-- `AIService._retry_with_backoff(operation, max_retries, base_delay)`. -/
def retryWithBackoff (op : Nat → Except String α) (maxRetries : Nat)
    (baseDelay : ℚ) : RetryOutcome α :=
  retryLoop op maxRetries baseDelay 0 (maxRetries + 1) none

/-- C1: an operation that fails on each attempt with a retryable error is,
for max_retries = 3 and base_delay = 1.0, invoked exactly 4 times, with
sleeps of 1s, 2s and 4s between consecutive attempts, and the error raised
by the last (fourth) invocation is re-raised. -/
theorem retry_retryable_exhausts_budget
    (op : Nat → Except String String) (errs : Nat → String)
    (hop : ∀ n, op n = .error (errs n))
    (hret : ∀ n, isRetryableError (errs n) = true) :
    retryWithBackoff op 3 1 = ⟨.error (errs 3), 4, [1, 2, 4]⟩ := by
  simp [retryWithBackoff, retryLoop, hop, hret]
  norm_num

/-- Witness for C1 at the concrete always-failing operation raising
"rate limit". -/
theorem retry_retryable_exhausts_budget_witness :
    retryWithBackoff (fun _ => (.error "rate limit" : Except String String)) 3 1
      = ⟨.error "rate limit", 4, [1, 2, 4]⟩ :=
  retry_retryable_exhausts_budget (fun _ => .error "rate limit")
    (fun _ => "rate limit") (fun _ => rfl)
    (fun _ => (by decide : isRetryableError "rate limit" = true))

/-- C6: an operation whose first call fails with a non-retryable error is
invoked exactly once, no backoff sleep is issued, and the error is re-raised
immediately. -/
theorem retry_nonretryable_single_attempt
    (op : Nat → Except String α) (e : String) (maxRetries : Nat) (baseDelay : ℚ)
    (h0 : op 0 = .error e) (hnr : isRetryableError e = false) :
    retryWithBackoff op maxRetries baseDelay = ⟨.error e, 1, []⟩ := by
  simp [retryWithBackoff, retryLoop, h0, hnr]

/-- Witness for C6 at the concrete operation raising "invalid api key". -/
theorem retry_nonretryable_single_attempt_witness :
    retryWithBackoff (fun _ => (.error "invalid api key" : Except String String)) 5 1
      = ⟨.error "invalid api key", 1, []⟩ :=
  retry_nonretryable_single_attempt (fun _ => .error "invalid api key")
    "invalid api key" 5 1 rfl (by decide)

/-! ### Metrics — `AIMetrics` (`ai_monitoring.py`)

Counters are naturals; response times and cost estimates are rationals. -/

/-- State of the process-wide `AIMetrics` instance.  `response_times` embeds
the private `_response_times` list. -/
structure AIMetrics where
  total_requests : Nat
  successful_requests : Nat
  failed_requests : Nat
  total_tokens_used : Nat
  total_cost_estimate : ℚ
  cache_hits : Nat
  cache_misses : Nat
  average_response_time : ℚ
  response_times : List ℚ
deriving DecidableEq

/-- `AIMetrics.__init__`: all counters zero, empty history. -/
def AIMetrics.init : AIMetrics :=
  ⟨0, 0, 0, 0, 0, 0, 0, 0, []⟩

/-- `AIMetrics.record_request`, field updates in source order; the
response-time history and the derived average are only updated when
`response_time > 0`. -/
def AIMetrics.record_request (m : AIMetrics) (success : Bool) (tokens : Nat)
    (response_time : ℚ) (cost_estimate : ℚ) (cache_hit : Bool) : AIMetrics :=
  let m1 := { m with total_requests := m.total_requests + 1 }
  let m2 :=
    if success then { m1 with successful_requests := m1.successful_requests + 1 }
    else { m1 with failed_requests := m1.failed_requests + 1 }
  let m3 := { m2 with
    total_tokens_used := m2.total_tokens_used + tokens,
    total_cost_estimate := m2.total_cost_estimate + cost_estimate }
  let m4 :=
    if cache_hit then { m3 with cache_hits := m3.cache_hits + 1 }
    else { m3 with cache_misses := m3.cache_misses + 1 }
  if 0 < response_time then
    let ts := m4.response_times ++ [response_time]
    { m4 with response_times := ts,
              average_response_time := ts.sum / (ts.length : ℚ) }
  else m4

/-- Arguments of one completed operation's `record_request` call. -/
structure RequestRecord where
  success : Bool
  tokens : Nat
  response_time : ℚ
  cost_estimate : ℚ
  cache_hit : Bool

/-- Record a sequence of completed operations in order. -/
def recordAll (m : AIMetrics) (rs : List RequestRecord) : AIMetrics :=
  rs.foldl
    (fun acc r =>
      acc.record_request r.success r.tokens r.response_time r.cost_estimate r.cache_hit)
    m

theorem record_request_total (m : AIMetrics) (s h : Bool) (t : Nat) (rt c : ℚ) :
    (m.record_request s t rt c h).total_requests = m.total_requests + 1 := by
  cases s <;> cases h <;>
    by_cases hrt : (0 : ℚ) < rt <;>
    simp [AIMetrics.record_request, hrt]

theorem record_request_successful (m : AIMetrics) (s h : Bool) (t : Nat) (rt c : ℚ) :
    (m.record_request s t rt c h).successful_requests
      = m.successful_requests + (if s then 1 else 0) := by
  cases s <;> cases h <;>
    by_cases hrt : (0 : ℚ) < rt <;>
    simp [AIMetrics.record_request, hrt]

theorem record_request_failed (m : AIMetrics) (s h : Bool) (t : Nat) (rt c : ℚ) :
    (m.record_request s t rt c h).failed_requests
      = m.failed_requests + (if s then 0 else 1) := by
  cases s <;> cases h <;>
    by_cases hrt : (0 : ℚ) < rt <;>
    simp [AIMetrics.record_request, hrt]

theorem record_request_hits (m : AIMetrics) (s h : Bool) (t : Nat) (rt c : ℚ) :
    (m.record_request s t rt c h).cache_hits
      = m.cache_hits + (if h then 1 else 0) := by
  cases s <;> cases h <;>
    by_cases hrt : (0 : ℚ) < rt <;>
    simp [AIMetrics.record_request, hrt]

theorem record_request_misses (m : AIMetrics) (s h : Bool) (t : Nat) (rt c : ℚ) :
    (m.record_request s t rt c h).cache_misses
      = m.cache_misses + (if h then 0 else 1) := by
  cases s <;> cases h <;>
    by_cases hrt : (0 : ℚ) < rt <;>
    simp [AIMetrics.record_request, hrt]

theorem recordAll_total (rs : List RequestRecord) :
    ∀ m : AIMetrics, (recordAll m rs).total_requests = m.total_requests + rs.length := by
  induction rs with
  | nil => intro m; simp [recordAll]
  | cons r rs ih =>
    intro m
    have h := ih (m.record_request r.success r.tokens r.response_time r.cost_estimate r.cache_hit)
    simp only [recordAll, List.foldl] at h ⊢
    rw [h, record_request_total]
    simp [List.length]
    omega

theorem recordAll_succ_add_failed (rs : List RequestRecord) :
    ∀ m : AIMetrics,
      (recordAll m rs).successful_requests + (recordAll m rs).failed_requests
        = m.successful_requests + m.failed_requests + rs.length := by
  induction rs with
  | nil => intro m; simp [recordAll]
  | cons r rs ih =>
    intro m
    have h := ih (m.record_request r.success r.tokens r.response_time r.cost_estimate r.cache_hit)
    simp only [recordAll, List.foldl] at h ⊢
    rw [h, record_request_successful, record_request_failed]
    cases r.success <;> simp [List.length] <;> omega

theorem recordAll_hits_add_misses (rs : List RequestRecord) :
    ∀ m : AIMetrics,
      (recordAll m rs).cache_hits + (recordAll m rs).cache_misses
        = m.cache_hits + m.cache_misses + rs.length := by
  induction rs with
  | nil => intro m; simp [recordAll]
  | cons r rs ih =>
    intro m
    have h := ih (m.record_request r.success r.tokens r.response_time r.cost_estimate r.cache_hit)
    simp only [recordAll, List.foldl] at h ⊢
    rw [h, record_request_hits, record_request_misses]
    cases r.cache_hit <;> simp [List.length] <;> omega

/-- C3: after any sequence of N completed operations recorded from a fresh
metrics instance, successful + failed = total = N and hits + misses = total;
moreover every single `record_request` call increments `total_requests` by 1,
exactly one of `successful_requests`/`failed_requests` by 1, and exactly one
of `cache_hits`/`cache_misses` by 1. -/
theorem metrics_counter_invariant (rs : List RequestRecord)
    (m : AIMetrics) (s h : Bool) (t : Nat) (rt c : ℚ) :
    ((recordAll AIMetrics.init rs).successful_requests
        + (recordAll AIMetrics.init rs).failed_requests
        = (recordAll AIMetrics.init rs).total_requests
      ∧ (recordAll AIMetrics.init rs).total_requests = rs.length
      ∧ (recordAll AIMetrics.init rs).cache_hits
          + (recordAll AIMetrics.init rs).cache_misses
        = (recordAll AIMetrics.init rs).total_requests)
    ∧ (m.record_request s t rt c h).total_requests = m.total_requests + 1
    ∧ (m.record_request s t rt c h).successful_requests
        = m.successful_requests + (if s then 1 else 0)
    ∧ (m.record_request s t rt c h).failed_requests
        = m.failed_requests + (if s then 0 else 1)
    ∧ (m.record_request s t rt c h).cache_hits
        = m.cache_hits + (if h then 1 else 0)
    ∧ (m.record_request s t rt c h).cache_misses
        = m.cache_misses + (if h then 0 else 1) := by
  refine ⟨⟨?_, ?_, ?_⟩, record_request_total m s h t rt c,
    record_request_successful m s h t rt c, record_request_failed m s h t rt c,
    record_request_hits m s h t rt c, record_request_misses m s h t rt c⟩
  · rw [recordAll_succ_add_failed rs AIMetrics.init, recordAll_total rs AIMetrics.init]
    simp [AIMetrics.init]
  · rw [recordAll_total rs AIMetrics.init]; simp [AIMetrics.init]
  · rw [recordAll_hits_add_misses rs AIMetrics.init, recordAll_total rs AIMetrics.init]
    simp [AIMetrics.init]

/-- C8 counterexample: `record_request` with `response_time = 0` does not
append to the history and leaves the average unchanged.  After recording
times 2 then 0, the history is `[2]` and the average is 2, not the mean 1 of
`[2, 0]` the claim requires. -/
theorem record_request_zero_time_counterexample :
    ((AIMetrics.init.record_request true 0 2 0 false).record_request
        true 0 0 0 false).response_times = [2]
    ∧ ((AIMetrics.init.record_request true 0 2 0 false).record_request
        true 0 0 0 false).average_response_time = 2
    ∧ ¬ (((AIMetrics.init.record_request true 0 2 0 false).record_request
          true 0 0 0 false).response_times = [2, 0]
        ∧ ((AIMetrics.init.record_request true 0 2 0 false).record_request
            true 0 0 0 false).average_response_time = (2 + 0) / 2) := by
  have h1 : AIMetrics.init.record_request true 0 2 0 false
      = ⟨1, 1, 0, 0, 0, 0, 1, 2, [2]⟩ := by
    simp [AIMetrics.record_request, AIMetrics.init]
  have h2 : (⟨1, 1, 0, 0, 0, 0, 1, 2, [2]⟩ : AIMetrics).record_request true 0 0 0 false
      = ⟨2, 2, 0, 0, 0, 0, 2, 2, [2]⟩ := by
    simp [AIMetrics.record_request]
  rw [h1, h2]
  refine ⟨rfl, rfl, ?_⟩
  intro hc
  simpa using hc.1

/-- C8 amended: a `record_request` call with positive `response_time`
appends it to the history and recomputes `average_response_time` as the
arithmetic mean of all history entries; a call with non-positive
`response_time` leaves the history and the average unchanged. -/
theorem record_request_response_time_update (m : AIMetrics) (s h : Bool)
    (t : Nat) (rt c : ℚ) :
    (0 < rt →
      (m.record_request s t rt c h).response_times = m.response_times ++ [rt]
      ∧ (m.record_request s t rt c h).average_response_time
          = (m.response_times ++ [rt]).sum / ((m.response_times ++ [rt]).length : ℚ))
    ∧ (¬ 0 < rt →
      (m.record_request s t rt c h).response_times = m.response_times
      ∧ (m.record_request s t rt c h).average_response_time
          = m.average_response_time) := by
  constructor <;> intro hrt <;> cases s <;> cases h <;>
    simp [AIMetrics.record_request, hrt]

/-- Witness for C8's amended theorem at concrete inputs on both branches. -/
theorem record_request_response_time_update_witness :
    ((AIMetrics.init.record_request true 0 2 0 false).response_times
        = [] ++ [(2 : ℚ)]
      ∧ (AIMetrics.init.record_request true 0 2 0 false).average_response_time
        = (([] ++ [(2 : ℚ)]).sum / ((([] : List ℚ) ++ [(2 : ℚ)]).length : ℚ)))
    ∧ ((AIMetrics.init.record_request true 0 0 0 false).response_times
        = AIMetrics.init.response_times
      ∧ (AIMetrics.init.record_request true 0 0 0 false).average_response_time
        = AIMetrics.init.average_response_time) :=
  ⟨(record_request_response_time_update AIMetrics.init true false 0 2 0).1
      (by norm_num),
   (record_request_response_time_update AIMetrics.init true false 0 0 0).2
      (by norm_num)⟩

/-! ### Operation monitor — `monitor_ai_operation` (`ai_monitoring.py`) -/

/-- `estimate_cost(model, input_tokens, output_tokens)`: per-token pricing
with a lookup defaulting to the gpt-3.5-turbo rates. -/
def estimate_cost (model : String) (input_tokens output_tokens : Nat) : ℚ :=
  let mp : ℚ × ℚ :=
    if model = "gpt-3.5-turbo" then (0.0015 / 1000, 0.002 / 1000)
    else if model = "gpt-4" then (0.03 / 1000, 0.06 / 1000)
    else if model = "gpt-4-turbo-preview" then (0.01 / 1000, 0.03 / 1000)
    else (0.0015 / 1000, 0.002 / 1000)
  (input_tokens : ℚ) * mp.1 + (output_tokens : ℚ) * mp.2

/-- The mutable `operation_data` record yielded to the monitored body. -/
structure OpData where
  success : Bool
  input_tokens : Nat
  output_tokens : Nat
  total_tokens : Nat
  cache_hit : Bool
  error : Option String
deriving DecidableEq

/-- Initial `operation_data`: `{false, 0, 0, 0, false, None}`. -/
def OpData.init : OpData :=
  ⟨false, 0, 0, 0, false, none⟩

/-- `monitor_ai_operation` as a state transformer.  The wrapped body receives
the initial `operation_data`, may mutate it, and either returns a value or
raises an error message; on normal completion the monitor sets
`success := true`, on an exception it records `error := message` and
re-raises; the `finally` block always commits exactly one
`ai_metrics.record_request` with the elapsed wall-clock time.  Wall-clock
elapsed time is an external input `elapsed`. -/
def monitor_ai_operation (metrics : AIMetrics) (model : String) (elapsed : ℚ)
    (body : OpData → OpData × Except String α) :
    AIMetrics × OpData × Except String α :=
  let p := body OpData.init
  match p.2 with
  | .ok v =>
    let od := { p.1 with success := true }
    (metrics.record_request od.success od.total_tokens elapsed
        (estimate_cost model od.input_tokens od.output_tokens) od.cache_hit,
      od, .ok v)
  | .error e =>
    let od := { p.1 with error := some e }
    (metrics.record_request od.success od.total_tokens elapsed
        (estimate_cost model od.input_tokens od.output_tokens) od.cache_hit,
      od, .error e)

/-- C4: if the wrapped body raises (and, as every wrapped body in the
repository does, leaves `success` untouched at false), the monitor records
the error message in the operation record, commits exactly one metrics
record — incrementing `failed_requests` and `total_requests` by one and
leaving `successful_requests` unchanged — and re-raises the same exception
to the caller. -/
theorem monitor_records_failure_and_reraises (metrics : AIMetrics)
    (model : String) (elapsed : ℚ) (body : OpData → OpData × Except String α)
    (od : OpData) (e : String)
    (hbody : body OpData.init = (od, .error e)) (hs : od.success = false) :
    (monitor_ai_operation metrics model elapsed body).2.2 = .error e
    ∧ (monitor_ai_operation metrics model elapsed body).2.1.error = some e
    ∧ (monitor_ai_operation metrics model elapsed body).1.failed_requests
        = metrics.failed_requests + 1
    ∧ (monitor_ai_operation metrics model elapsed body).1.total_requests
        = metrics.total_requests + 1
    ∧ (monitor_ai_operation metrics model elapsed body).1.successful_requests
        = metrics.successful_requests := by
  have hmono : monitor_ai_operation metrics model elapsed body
      = (metrics.record_request ({ od with error := some e }).success
            ({ od with error := some e }).total_tokens elapsed
            (estimate_cost model ({ od with error := some e }).input_tokens
              ({ od with error := some e }).output_tokens)
            ({ od with error := some e }).cache_hit,
          { od with error := some e }, .error e) := by
    simp [monitor_ai_operation, hbody]
  rw [hmono]
  refine ⟨rfl, rfl, ?_, ?_, ?_⟩
  · rw [record_request_failed]
    simp [hs]
  · rw [record_request_total]
  · rw [record_request_successful]
    simp [hs]

/-- Witness for C4 at a concrete failing body. -/
theorem monitor_records_failure_and_reraises_witness :
    (monitor_ai_operation (α := String) AIMetrics.init "gpt-4" 1
        (fun od => (od, .error "boom"))).2.2 = .error "boom"
    ∧ (monitor_ai_operation (α := String) AIMetrics.init "gpt-4" 1
        (fun od => (od, .error "boom"))).2.1.error = some "boom"
    ∧ (monitor_ai_operation (α := String) AIMetrics.init "gpt-4" 1
        (fun od => (od, .error "boom"))).1.failed_requests
        = AIMetrics.init.failed_requests + 1
    ∧ (monitor_ai_operation (α := String) AIMetrics.init "gpt-4" 1
        (fun od => (od, .error "boom"))).1.total_requests
        = AIMetrics.init.total_requests + 1
    ∧ (monitor_ai_operation (α := String) AIMetrics.init "gpt-4" 1
        (fun od => (od, .error "boom"))).1.successful_requests
        = AIMetrics.init.successful_requests :=
  monitor_records_failure_and_reraises AIMetrics.init "gpt-4" 1
    (fun od => (od, .error "boom")) OpData.init "boom" rfl rfl

/-! ### Model gateway — `OpenAIClient` (`llm_client.py`) -/

/-- A chat choice's `message` (only the `content` field is consumed). -/
structure ChoiceMessage where
  content : Option String
deriving DecidableEq

/-- One entry of `response.choices`. -/
structure Choice where
  message : ChoiceMessage
deriving DecidableEq

/-- The provider's `ChatCompletion` response (only `choices` is consumed). -/
structure ChatCompletion where
  choices : List Choice
deriving DecidableEq

/-- Outcome of one raw provider call: a response, a wall-clock deadline
exceedance of `asyncio.wait_for`, or a provider exception with a message. -/
inductive ProviderCall where
  | completes (resp : ChatCompletion)
  | exceedsDeadline
  | fails (msg : String)
deriving DecidableEq

/-- `OpenAIClient.chat_completion`: forwards the provider response, maps a
deadline exceedance to the message built from the configured timeout, and
wraps any other provider exception. -/
def chat_completion (timeout : Nat) (call : ProviderCall) :
    Except String ChatCompletion :=
  match call with
  | .completes resp => .ok resp
  | .exceedsDeadline =>
    .error ("AI request timed out after " ++ toString timeout ++ " seconds")
  | .fails msg => .error ("AI service error: " ++ msg)

/-- `OpenAIClient.generate_text`: raises when the response has no choices,
otherwise returns the first choice's content with null replaced by the
empty string (`content or ""`). -/
def generate_text (timeout : Nat) (call : ProviderCall) : Except String String :=
  match chat_completion timeout call with
  | .error e => .error e
  | .ok resp =>
    match resp.choices with
    | [] => .error "No response generated from AI service"
    | c :: _ => .ok (c.message.content.getD "")

/-- C10: given any provider response, `generate_text` raises
"No response generated from AI service" exactly when the response has no
choices; with at least one choice it returns the first choice's content,
with a null content replaced by the empty string — never a null result. -/
theorem generate_text_empty_choices_iff (timeout : Nat) (resp : ChatCompletion) :
    (generate_text timeout (.completes resp)
        = .error "No response generated from AI service" ↔ resp.choices = [])
    ∧ ∀ c cs, resp.choices = c :: cs →
        generate_text timeout (.completes resp) = .ok (c.message.content.getD "") := by
  constructor
  · constructor
    · intro h
      cases hc : resp.choices with
      | nil => rfl
      | cons c cs => simp [generate_text, chat_completion, hc] at h
    · intro h
      simp [generate_text, chat_completion, h]
  · intro c cs h
    simp [generate_text, chat_completion, h]

/-- Witness for C10: an empty-choices response raises the controlled error
and a single null-content choice yields the empty string. -/
theorem generate_text_empty_choices_iff_witness :
    (generate_text 30 (.completes ⟨[]⟩)
        = .error "No response generated from AI service" ↔ ([] : List Choice) = [])
    ∧ generate_text 30 (.completes ⟨[⟨⟨none⟩⟩]⟩)
        = .ok ((none : Option String).getD "") :=
  ⟨(generate_text_empty_choices_iff 30 ⟨[]⟩).1,
   (generate_text_empty_choices_iff 30 ⟨[⟨⟨none⟩⟩]⟩).2 ⟨⟨none⟩⟩ [] rfl⟩

/-! ### Orchestrator error mapping — `AIService.generate_code`
(`ai_service.py`) -/

/-- The `except` branch of `AIService.generate_code`: selects the final
caller-facing message by substring tests on the lowercased error message,
defaulting to the generic task-specific failure message embedding the
original error text. -/
def generate_code_error_message (e : String) : String :=
  let s := pyLower e
  if strHasSub s "rate limit" || strHasSub s "quota" then
    "AI service rate limit exceeded. Please try again later."
  else if strHasSub s "timeout" then
    "AI service request timed out. Please try again."
  else if strHasSub s "authentication" || strHasSub s "api key" then
    "AI service authentication failed. Please check configuration."
  else
    "Failed to generate code: " ++ e

/-- The error path of `AIService.generate_code`: run the gateway call for
each attempt under the retry policy (max_retries 3, base_delay 1.0) and,
when the retries end in an error, map it to the final caller-facing
message.  `provider` gives the raw outcome of the n-th provider call. -/
def generate_code_failure_message (timeout : Nat)
    (provider : Nat → ProviderCall) : Option String :=
  match (retryWithBackoff (fun n => generate_text timeout (provider n)) 3 1).result with
  | .ok _ => none
  | .error e => some (generate_code_error_message e)

/-- C5 evaluation: when every provider call exceeds the configured 30s
deadline, the gateway's message is "AI request timed out after 30 seconds",
which does not contain the substring "timeout" the orchestrator classifies
on, so the final caller-facing message is the generic
"Failed to generate code: ..." — not the timed-out message the claim (and
the orchestrator's own timeout branch) intends. -/
theorem generate_code_deadline_generic_message :
    generate_code_failure_message 30 (fun _ => .exceedsDeadline)
      = some "Failed to generate code: AI request timed out after 30 seconds"
    ∧ generate_code_failure_message 30 (fun _ => .exceedsDeadline)
      ≠ some "AI service request timed out. Please try again." := by
  constructor <;> decide

/-! ### HTTP endpoints and response cache — `api/v1/ai.py`

The Redis cache is modelled as an association list from keys to stored
values, newest binding first (`setex` overwrites, `get` finds the newest);
JSON serialisation round-trips the stored result record and is modelled as
identity; only live (unexpired) entries are represented.  The MD5 digest of
`_generate_code_hash` is a pure deterministic function of the code text and
is taken as a parameter `hash`.  `serviceCalls` counts invocations of the
underlying AI-service operation (each of which reaches the model gateway). -/

/-- Token-accounting metadata echoed in every operation result. -/
structure UsageMetadata where
  input_tokens : Nat
  output_tokens : Nat
  total_tokens : Nat
  model : String
deriving DecidableEq

/-- Request body of POST /ai/explain-code. -/
structure CodeExplanationRequest where
  code : String
  focus_areas : Option String
  target_audience : Option String
deriving DecidableEq

/-- Request body of POST /ai/review-code. -/
structure CodeReviewRequest where
  code : String
  review_type : Option String
  specific_concerns : Option String
deriving DecidableEq

/-- Request body of POST /ai/generate-code. -/
structure CodeGenerationRequest where
  description : String
  language : Option String
  framework : Option String
  additional_requirements : Option String
deriving DecidableEq

/-- Result record of `AIService.explain_code`. -/
structure ExplainResult where
  explanation : String
  original_code : String
  focus_areas : Option String
  target_audience : Option String
  metadata : UsageMetadata
deriving DecidableEq

/-- Result record of `AIService.review_code`. -/
structure ReviewResult where
  review : String
  original_code : String
  review_type : Option String
  specific_concerns : Option String
  metadata : UsageMetadata
deriving DecidableEq

/-- Result record of `AIService.generate_code`. -/
structure GenerateResult where
  generated_code : String
  language : Option String
  framework : Option String
  description : String
  metadata : UsageMetadata
deriving DecidableEq

/-- Result record of `AIService.health_check` (main fields). -/
structure HealthResult where
  status : String
  service : String
  model : String
deriving DecidableEq

/-- Result record of `AIService.get_context_info`. -/
structure ContextResult where
  model : String
  max_tokens : Nat
  temperature : ℚ
  timeout : Nat
  available_operations : List String
deriving DecidableEq

/-- A value stored in the shared response cache.  Keys are prefixed per
operation, so each endpoint only ever finds its own constructor under its
keys; a mismatched constructor is treated as a miss. -/
inductive CacheValue where
  | explanation (v : ExplainResult)
  | review (v : ReviewResult)
  | health (v : HealthResult)
  | context (v : ContextResult)
deriving DecidableEq

/-- Shared state threaded through the endpoints: the live cache entries and
the number of AI-service invocations made so far. -/
structure ApiState where
  cache : List (String × CacheValue)
  serviceCalls : Nat
deriving DecidableEq

/-- Redis `get` on the live entries, newest binding first. -/
def cacheGet (cache : List (String × CacheValue)) (key : String) :
    Option CacheValue :=
  match cache with
  | [] => none
  | (k, v) :: rest => if k = key then some v else cacheGet rest key

/-- Redis `setex`: the new binding shadows any older one. -/
def cacheSet (cache : List (String × CacheValue)) (key : String)
    (v : CacheValue) : List (String × CacheValue) :=
  (key, v) :: cache

/-- Cache key built inside `explain_code`:
code_explanation:{hash}:{focus_areas or none}:{target_audience or none}. -/
def explanation_cache_key (hash : String → String)
    (r : CodeExplanationRequest) : String :=
  "code_explanation:" ++ hash r.code ++ ":" ++ pyOr r.focus_areas "none"
    ++ ":" ++ pyOr r.target_audience "none"

/-- Cache key built inside `review_code`:
code_review:{hash}:{review_type or general}:{specific_concerns or none}. -/
def review_cache_key (hash : String → String) (r : CodeReviewRequest) : String :=
  "code_review:" ++ hash r.code ++ ":" ++ pyOr r.review_type "general"
    ++ ":" ++ pyOr r.specific_concerns "none"

/-- The cache-key shape stated by the specification:
operation, content hash and two rendered modifiers joined by colons. -/
def specCacheKey (operation content_hash modifier1 modifier2 : String) : String :=
  operation ++ ":" ++ content_hash ++ ":" ++ modifier1 ++ ":" ++ modifier2

/-- POST /ai/explain-code: consult the cache under the explanation key;
on a hit return the cached result without invoking the service; on a miss
invoke the service and cache the result (TTL 3600s, not modelled beyond
liveness). -/
def explain_code_endpoint (hash : String → String)
    (svc : CodeExplanationRequest → ExplainResult) (st : ApiState)
    (r : CodeExplanationRequest) : ApiState × ExplainResult :=
  let key := explanation_cache_key hash r
  match cacheGet st.cache key with
  | some (.explanation v) => (st, v)
  | _ =>
    let res := svc r
    (⟨cacheSet st.cache key (.explanation res), st.serviceCalls + 1⟩, res)

/-- POST /ai/review-code: same shape as explain-code with the review key
and TTL 1800s. -/
def review_code_endpoint (hash : String → String)
    (svc : CodeReviewRequest → ReviewResult) (st : ApiState)
    (r : CodeReviewRequest) : ApiState × ReviewResult :=
  let key := review_cache_key hash r
  match cacheGet st.cache key with
  | some (.review v) => (st, v)
  | _ =>
    let res := svc r
    (⟨cacheSet st.cache key (.review res), st.serviceCalls + 1⟩, res)

/-- POST /ai/generate-code: no cache read and no cache write — every
request invokes the AI service. -/
def generate_code_endpoint (svc : CodeGenerationRequest → GenerateResult)
    (st : ApiState) (r : CodeGenerationRequest) : ApiState × GenerateResult :=
  (⟨st.cache, st.serviceCalls + 1⟩, svc r)

/-- GET /ai/health: cached under the fixed key ai_health_check (TTL 300s). -/
def ai_health_endpoint (svc : Unit → HealthResult) (st : ApiState) :
    ApiState × HealthResult :=
  match cacheGet st.cache "ai_health_check" with
  | some (.health v) => (st, v)
  | _ =>
    let res := svc ()
    (⟨cacheSet st.cache "ai_health_check" (.health res), st.serviceCalls + 1⟩, res)

/-- GET /ai/context: cached under the fixed key ai_context_info (TTL 600s). -/
def ai_context_endpoint (svc : Unit → ContextResult) (st : ApiState) :
    ApiState × ContextResult :=
  match cacheGet st.cache "ai_context_info" with
  | some (.context v) => (st, v)
  | _ =>
    let res := svc ()
    (⟨cacheSet st.cache "ai_context_info" (.context res), st.serviceCalls + 1⟩, res)

/-- C2: a second explain-code call with identical code, focus_areas and
target_audience while the cache entry is live makes no further AI-service
(hence no model-gateway) invocation and returns the same explanation text;
in particular, starting from an empty cache, the service-call count is 1
after the first call and still 1 after the second, which returns the
identical response. -/
theorem explain_code_second_call_cached (hash : String → String)
    (svc : CodeExplanationRequest → ExplainResult) (st0 : ApiState)
    (r : CodeExplanationRequest) :
    ((explain_code_endpoint hash svc
          (explain_code_endpoint hash svc st0 r).1 r).2.explanation
        = (explain_code_endpoint hash svc st0 r).2.explanation
      ∧ (explain_code_endpoint hash svc
          (explain_code_endpoint hash svc st0 r).1 r).1.serviceCalls
        = (explain_code_endpoint hash svc st0 r).1.serviceCalls)
    ∧ ((explain_code_endpoint hash svc ⟨[], 0⟩ r).1.serviceCalls = 1
      ∧ (explain_code_endpoint hash svc
          (explain_code_endpoint hash svc ⟨[], 0⟩ r).1 r).1.serviceCalls = 1
      ∧ (explain_code_endpoint hash svc
          (explain_code_endpoint hash svc ⟨[], 0⟩ r).1 r).2
        = (explain_code_endpoint hash svc ⟨[], 0⟩ r).2) := by
  constructor
  · rcases hget : cacheGet st0.cache (explanation_cache_key hash r) with _ | val
    · simp [explain_code_endpoint, hget, cacheGet, cacheSet]
    · cases val <;>
        simp [explain_code_endpoint, hget, cacheGet, cacheSet]
  · have h0 : cacheGet ([] : List (String × CacheValue))
        (explanation_cache_key hash r) = none := rfl
    simp [explain_code_endpoint, h0, cacheGet, cacheSet]

/-- C7 counterexample: a review-code request with no review_type renders the
first modifier as general, so the key differs from the claimed
...:none:none form (shown here with the identity digest). -/
theorem review_cache_key_counterexample :
    review_cache_key (fun s => s) ⟨"print(1)", none, none⟩
        = "code_review:print(1):general:none"
    ∧ review_cache_key (fun s => s) ⟨"print(1)", none, none⟩
        ≠ "code_review:print(1):none:none" := by
  constructor <;> decide

/-- C7 amended: every cached code operation uses a key of the spec's shape
operation:content_hash:modifier1:modifier2, with the content hash a
deterministic digest of the code payload and absent (or empty) optional
modifiers rendered as none — except that review-code renders an absent
review_type as general. -/
theorem cache_key_format (hash : String → String)
    (re : CodeExplanationRequest) (rr : CodeReviewRequest) :
    explanation_cache_key hash re
        = specCacheKey "code_explanation" (hash re.code)
            (pyOr re.focus_areas "none") (pyOr re.target_audience "none")
    ∧ review_cache_key hash rr
        = specCacheKey "code_review" (hash rr.code)
            (pyOr rr.review_type "general") (pyOr rr.specific_concerns "none") := by
  constructor
  · simp [explanation_cache_key, specCacheKey, String.append_assoc]
  · simp [review_cache_key, specCacheKey, String.append_assoc]

/-- C9: generate-code never touches the response cache — its endpoint
leaves the cache unchanged and invokes the AI service (and hence the model
gateway) on every request — while the explanation, review, health and
context endpoints all consult the cache: with a live entry under their key
they return it and make no service invocation. -/
theorem generate_code_bypasses_cache
    (gsvc : CodeGenerationRequest → GenerateResult)
    (hash : String → String) (esvc : CodeExplanationRequest → ExplainResult)
    (rsvc : CodeReviewRequest → ReviewResult) (hsvc : Unit → HealthResult)
    (csvc : Unit → ContextResult) (st : ApiState) (r : CodeGenerationRequest)
    (re : CodeExplanationRequest) (rr : CodeReviewRequest)
    (ev : ExplainResult) (rv : ReviewResult) (hv : HealthResult)
    (cv : ContextResult)
    (he : cacheGet st.cache (explanation_cache_key hash re)
        = some (.explanation ev))
    (hr : cacheGet st.cache (review_cache_key hash rr) = some (.review rv))
    (hh : cacheGet st.cache "ai_health_check" = some (.health hv))
    (hc : cacheGet st.cache "ai_context_info" = some (.context cv)) :
    (generate_code_endpoint gsvc st r).1.cache = st.cache
    ∧ (generate_code_endpoint gsvc st r).1.serviceCalls = st.serviceCalls + 1
    ∧ (generate_code_endpoint gsvc st r).2 = gsvc r
    ∧ explain_code_endpoint hash esvc st re = (st, ev)
    ∧ review_code_endpoint hash rsvc st rr = (st, rv)
    ∧ ai_health_endpoint hsvc st = (st, hv)
    ∧ ai_context_endpoint csvc st = (st, cv) := by
  refine ⟨rfl, rfl, rfl, ?_, ?_, ?_, ?_⟩
  · simp [explain_code_endpoint, he]
  · simp [review_code_endpoint, hr]
  · simp [ai_health_endpoint, hh]
  · simp [ai_context_endpoint, hc]

/-- Concrete metadata used by the C9 witness. -/
def witnessMeta : UsageMetadata :=
  ⟨1, 1, 2, "gpt-3.5-turbo"⟩

/-- Concrete cache state used by the C9 witness: one live entry for each
cached operation, under the keys the endpoints build for the identity
digest and the all-absent-modifier requests with code "c". -/
def witnessState : ApiState :=
  ⟨[("code_explanation:c:none:none",
      .explanation ⟨"exp", "c", none, none, witnessMeta⟩),
    ("code_review:c:general:none",
      .review ⟨"rev", "c", none, none, witnessMeta⟩),
    ("ai_health_check", .health ⟨"healthy", "OpenAI", "gpt-3.5-turbo"⟩),
    ("ai_context_info", .context ⟨"gpt-3.5-turbo", 1000, 1, 30, []⟩)], 0⟩

/-- Witness for C9 at the concrete cache state. -/
theorem generate_code_bypasses_cache_witness :
    (generate_code_endpoint (fun _ => ⟨"g", none, none, "d", witnessMeta⟩)
        witnessState ⟨"d", none, none, none⟩).1.cache = witnessState.cache
    ∧ (generate_code_endpoint (fun _ => ⟨"g", none, none, "d", witnessMeta⟩)
        witnessState ⟨"d", none, none, none⟩).1.serviceCalls
        = witnessState.serviceCalls + 1
    ∧ (generate_code_endpoint (fun _ => ⟨"g", none, none, "d", witnessMeta⟩)
        witnessState ⟨"d", none, none, none⟩).2
        = (fun _ : CodeGenerationRequest => ⟨"g", none, none, "d", witnessMeta⟩)
            (⟨"d", none, none, none⟩ : CodeGenerationRequest)
    ∧ explain_code_endpoint (fun s => s)
        (fun _ => ⟨"x", "c", none, none, witnessMeta⟩) witnessState
        ⟨"c", none, none⟩
        = (witnessState, ⟨"exp", "c", none, none, witnessMeta⟩)
    ∧ review_code_endpoint (fun s => s)
        (fun _ => ⟨"x", "c", none, none, witnessMeta⟩) witnessState
        ⟨"c", none, none⟩
        = (witnessState, ⟨"rev", "c", none, none, witnessMeta⟩)
    ∧ ai_health_endpoint (fun _ => ⟨"unhealthy", "OpenAI", "gpt-3.5-turbo"⟩)
        witnessState
        = (witnessState, ⟨"healthy", "OpenAI", "gpt-3.5-turbo"⟩)
    ∧ ai_context_endpoint (fun _ => ⟨"gpt-4", 1, 0, 1, []⟩) witnessState
        = (witnessState, ⟨"gpt-3.5-turbo", 1000, 1, 30, []⟩) :=
  generate_code_bypasses_cache
    (fun _ => ⟨"g", none, none, "d", witnessMeta⟩) (fun s => s)
    (fun _ => ⟨"x", "c", none, none, witnessMeta⟩)
    (fun _ => ⟨"x", "c", none, none, witnessMeta⟩)
    (fun _ => ⟨"unhealthy", "OpenAI", "gpt-3.5-turbo"⟩)
    (fun _ => ⟨"gpt-4", 1, 0, 1, []⟩)
    witnessState ⟨"d", none, none, none⟩ ⟨"c", none, none⟩ ⟨"c", none, none⟩
    ⟨"exp", "c", none, none, witnessMeta⟩ ⟨"rev", "c", none, none, witnessMeta⟩
    ⟨"healthy", "OpenAI", "gpt-3.5-turbo"⟩ ⟨"gpt-3.5-turbo", 1000, 1, 30, []⟩
    (by decide) (by decide) (by decide) (by decide)

end AIAssistant
